import Mathlib

/-!
Shallow embedding of the GridZen2 puzzle engine (src/App.js, the
`GridZenGame` component starting at line 1591).  Machine numbers of the
JavaScript source are modelled as `Nat` (counters, indices) or `Int`
(the countdown `timeLeft`, which is decremented).  The 2-dimensional
grid `newGrid[i][j]` is stored row-major as a flat list: entry (i, j)
of an N by N grid sits at index `i * N + j`, exactly the index the
source itself uses when it converts between the flat `numbers` array
and the nested grid.  Sources of randomness (`Math.random()`,
`Date.now()`) are passed in as explicit oracle parameters.
-/

namespace GridZen

/-- Game screen state, the values taken by the `gameState` React state
variable (`splash`, `menu`, `playing`, `won`, `gameOver`). -/
inductive GState
  | splash
  | menu
  | playing
  | won
  | gameOver
deriving DecidableEq, Repr

/-- Game mode: the `gameMode` state variable is either the string
`classic` or `puzzle` (line 1593). -/
inductive Mode
  | classic
  | puzzle
deriving DecidableEq, Repr

/-- The four keys of the `POWER_UP_TYPES` object (lines 1513-1518), in
object-key order. -/
inductive PowerUpType
  | FREEZE_TIME
  | SWAP_ANY
  | AUTO_SOLVE
  | DOUBLE_MOVE
deriving DecidableEq, Repr

/-- `Object.keys(POWER_UP_TYPES)` (line 1829): the catalog of power-up
kinds in key order. -/
def powerUpTypes : List PowerUpType :=
  [PowerUpType.FREEZE_TIME, PowerUpType.SWAP_ANY,
   PowerUpType.AUTO_SOLVE, PowerUpType.DOUBLE_MOVE]

/-- A power-up instance as built by `generatePowerUp` (lines 1831-1835):
`id` is `Date.now()` and `type` the drawn kind; the spread display
fields (`icon`, `name`, `description`) are functions of `type` and are
not modelled separately. -/
structure PowerUp where
  id : Nat
  type : PowerUpType
deriving DecidableEq, Repr

/-- A grid tile `{ number, color }` (lines 2169-2172). -/
structure Tile where
  number : Nat
  color : String
deriving DecidableEq, Repr, Inhabited

/-- One high-score entry as assembled in `handleWin` (lines 2253-2264).
`puzzleInfo` models the conditionally spread puzzle fields
`(puzzlePack, puzzleIndex, maxMoves)`. -/
structure ScoreRecord where
  name : String
  moves : Nat
  timeRemaining : Int
  date : String
  mode : Mode
  puzzleInfo : Option (String × Nat × Nat) := none
deriving DecidableEq, Repr

/-- The persisted `highScores` object: a partial map from bucket key to
the list of records stored under it. -/
def Store : Type := String → Option (List ScoreRecord)

/-- One fixed-puzzle definition from `PUZZLE_PACKS` (lines 1481-1510). -/
structure PuzzleDef where
  name : String
  gridSize : Nat
  maxMoves : Nat
  timeLimit : Nat
  startGrid : List Nat
deriving DecidableEq, Repr

/-- The `beginner` pack (lines 1482-1493). -/
def beginnerPack : List PuzzleDef :=
  [{ name := "First Steps", gridSize := 4, maxMoves := 1, timeLimit := 45,
     startGrid := [2,1,3,4,5,6,7,8,9,10,11,12,13,14,15,16] },
   { name := "Three Chain", gridSize := 4, maxMoves := 3, timeLimit := 60,
     startGrid := [3,1,4,2,5,6,7,8,9,10,11,12,13,14,15,16] },
   { name := "Five Step", gridSize := 4, maxMoves := 5, timeLimit := 75,
     startGrid := [7,1,2,3,5,6,8,4,9,10,11,12,13,14,15,16] },
   { name := "Seven Chain", gridSize := 4, maxMoves := 7, timeLimit := 90,
     startGrid := [7,1,2,3,5,6,11,4,9,10,12,8,13,14,15,16] },
   { name := "Nine Sequence", gridSize := 4, maxMoves := 9, timeLimit := 105,
     startGrid := [4,2,3,8,1,6,7,12,5,10,11,16,9,13,14,15] }]

/-- The `intermediate` pack (lines 1494-1501). -/
def intermediatePack : List PuzzleDef :=
  [{ name := "Double Challenge", gridSize := 4, maxMoves := 6, timeLimit := 120,
     startGrid := [2,1,4,3,5,6,7,8,9,10,11,12,13,14,15,16] },
   { name := "Triple Test", gridSize := 4, maxMoves := 8, timeLimit := 150,
     startGrid := [2,1,4,3,6,5,7,8,9,10,11,12,13,14,15,16] },
   { name := "Quad Master", gridSize := 4, maxMoves := 10, timeLimit := 180,
     startGrid := [2,1,4,3,6,5,8,7,9,10,11,12,13,14,15,16] }]

/-- The `advanced` pack (lines 1502-1509). -/
def advancedPack : List PuzzleDef :=
  [{ name := "Penta Challenge", gridSize := 4, maxMoves := 12, timeLimit := 200,
     startGrid := [2,1,4,3,6,5,8,7,10,9,11,12,13,14,15,16] },
   { name := "Hexa Master", gridSize := 4, maxMoves := 14, timeLimit := 250,
     startGrid := [2,1,4,3,6,5,8,7,10,9,12,11,13,14,15,16] },
   { name := "Ultimate Test", gridSize := 4, maxMoves := 16, timeLimit := 300,
     startGrid := [2,1,4,3,6,5,8,7,10,9,12,11,14,13,16,15] }]

/-- `PUZZLE_PACKS[pack]` with the `|| []` default applied by every
caller (lines 1613, 2663). -/
def PUZZLE_PACKS (pack : String) : List PuzzleDef :=
  if pack = "beginner" then beginnerPack
  else if pack = "intermediate" then intermediatePack
  else if pack = "advanced" then advancedPack
  else []

/-- The bucket key `puzzle-<pack>-<index>` (lines 1606, 2250). -/
def puzzleKey (pack : String) (index : Nat) : String :=
  "puzzle-" ++ pack ++ "-" ++ toString index

/-- The classic bucket key `<size>x<size>` (line 2251). -/
def classicKey (gridSize : Nat) : String :=
  toString gridSize ++ "x" ++ toString gridSize

/-- Full engine state: the React state variables of `GridZenGame` that
carry puzzle logic (lines 1592-1651).  `selectedTile` is the optional
`{ row, col }` pair, `selectedPowerUp` the armed one-shot override. -/
structure GameState where
  gameState : GState
  gameMode : Mode
  gridSize : Nat
  grid : List Tile
  selectedTile : Option (Nat × Nat)
  moves : Nat
  timeLeft : Int
  maxMoves : Nat
  powerUps : List PowerUp
  selectedPowerUp : Option PowerUpType
  highScores : Store
  currentPuzzlePack : String
  currentPuzzleIndex : Nat
  playerName : String

/-- Oracle for one call of `generatePowerUp` inside `handleTilePress`:
`chance` is the outcome of `Math.random() < 0.15` (line 1828),
`kindIdx` the outcome of `Math.floor(Math.random() * 4)` (line 1830),
and `newId` the `Date.now()` value (line 1832). -/
structure Rand where
  chance : Bool
  kindIdx : Fin 4
  newId : Nat

/-- Indexing of the `powerUpTypes` key list by the random draw. -/
def powerUpAt : Fin 4 → PowerUpType
  | 0 => PowerUpType.FREEZE_TIME
  | 1 => PowerUpType.SWAP_ANY
  | 2 => PowerUpType.AUTO_SOLVE
  | 3 => PowerUpType.DOUBLE_MOVE

/-- `generatePowerUp` (lines 1827-1838): in classic mode, with 15%
probability, draw a uniformly random key of `POWER_UP_TYPES` and build
a power-up instance; otherwise return `null`. -/
def generatePowerUp (r : Rand) (gameMode : Mode) : Option PowerUp :=
  if gameMode = Mode.classic ∧ r.chance then
    some { id := r.newId, type := powerUpAt r.kindIdx }
  else none

/-- The in-place tile exchange of `handleTilePress` (lines 2310-2312 and
2351-2353) on the flattened grid: position `a` receives the old tile of
position `b` and vice versa. -/
def swapTiles (g : List Tile) (a b : Nat) : List Tile :=
  let ta := g.getD a default
  let tb := g.getD b default
  (g.set a tb).set b ta

/-- `checkWin` (lines 2212-2232): every cell in row-major order holds
the next expected number; any missing cell yields `false`. -/
def checkWin (size : Nat) (g : List Tile) : Bool :=
  (List.range (size * size)).all fun idx =>
    match g.get? idx with
    | some t => t.number == idx + 1
    | none => false

/-- Adjacency test of `handleTilePress` (lines 2336-2338): same column
and rows differing by one, or same row and columns differing by one. -/
def isAdjacent (row col selRow selCol : Nat) : Bool :=
  (((row : Int) - (selRow : Int)).natAbs == 1 && col == selCol) ||
  (((col : Int) - (selCol : Int)).natAbs == 1 && row == selRow)

/-- `handleGameOver` (lines 2052-2075): the state change is the
transition to the `gameOver` screen (the cleared timer handle, sound
and alert carry no engine state). -/
def handleGameOver (s : GameState) : GameState :=
  { s with gameState := GState.gameOver }

/-- `handleTilePress(row, col)` (lines 2298-2392), the synchronous part
of the handler.  When the new grid satisfies `checkWin` the source only
schedules `handleWin` 300 ms later (lines 2319-2321, 2378-2382), so the
state returned here is the one in place when the handler returns;
`handleWin` is modelled as its own event.  In order: the
`gameState !== playing` guard, the `SWAP_ANY` special branch (which
swaps unconditionally, without the same-tile, adjacency or move-budget
checks), first selection, same-tile deselection, the adjacent-swap
branch with the puzzle move-budget check and move/power-up accounting,
and non-adjacent reselection. -/
def handleTilePress (r : Rand) (row col : Nat) (s : GameState) : GameState :=
  if s.gameState ≠ GState.playing then s
  else if s.selectedPowerUp = some PowerUpType.SWAP_ANY then
    match s.selectedTile with
    | none => { s with selectedTile := some (row, col) }
    | some (selRow, selCol) =>
      let newGrid := swapTiles s.grid (row * s.gridSize + col)
          (selRow * s.gridSize + selCol)
      { s with grid := newGrid, moves := s.moves + 1,
               selectedTile := none, selectedPowerUp := none }
  else
    match s.selectedTile with
    | none => { s with selectedTile := some (row, col) }
    | some (selRow, selCol) =>
      if row = selRow ∧ col = selCol then { s with selectedTile := none }
      else if isAdjacent row col selRow selCol then
        if s.gameMode = Mode.puzzle ∧ s.maxMoves ≤ s.moves then
          handleGameOver s
        else
          let newGrid := swapTiles s.grid (row * s.gridSize + col)
              (selRow * s.gridSize + selCol)
          if s.selectedPowerUp = some PowerUpType.DOUBLE_MOVE then
            { s with grid := newGrid, selectedPowerUp := none,
                     selectedTile := none }
          else
            let newPowerUps :=
              if s.gameMode = Mode.classic ∧ (s.moves + 1) % 8 = 0 then
                match generatePowerUp r s.gameMode with
                | some pu => s.powerUps ++ [pu]
                | none => s.powerUps
              else s.powerUps
            { s with grid := newGrid, moves := s.moves + 1,
                     powerUps := newPowerUps, selectedTile := none }
      else { s with selectedTile := some (row, col) }

/-- Inner scan-and-locate loop of the `AUTO_SOLVE` case (lines
1857-1870): scan grid rows `x` in order for the tile whose `number`
equals `expected`; on a hit swap it into slot `(i, j)` and increment
`fixed` (the hit breaks both inner loops, because `fixed` has just
become positive).  After a row without a hit, the source runs
`if (fixed > 0) break;`, so when a previous slot was already fixed the
search abandons after scanning row 0 alone. -/
def autoLocate (size expected i j : Nat) :
    List Nat → List Tile → Nat → List Tile × Nat
  | [], g, fixed => (g, fixed)
  | x :: rest, g, fixed =>
    match (List.range size).find?
        (fun y => (g.getD (x * size + y) default).number == expected) with
    | some y => (swapTiles g (i * size + j) (x * size + y), fixed + 1)
    | none =>
      if 0 < fixed then (g, fixed)
      else autoLocate size expected i j rest g fixed

/-- Outer slot scan of the `AUTO_SOLVE` case (lines 1853-1873): walk the
slots `(i, j)` in row-major order while `fixed < 2`; for each slot whose
tile is not the expected number, run the locate loop. -/
def autoScan (size : Nat) : List (Nat × Nat) → List Tile → Nat → List Tile
  | [], g, _ => g
  | (i, j) :: rest, g, fixed =>
    if 2 ≤ fixed then g
    else
      let expected := i * size + j + 1
      if (g.getD (i * size + j) default).number ≠ expected then
        let res := autoLocate size expected i j (List.range size) g fixed
        autoScan size rest res.1 res.2
      else autoScan size rest g fixed

/-- Row-major list of all slots `(i, j)` of an N by N grid. -/
def allSlots (size : Nat) : List (Nat × Nat) :=
  (List.range size).flatMap fun i => (List.range size).map fun j => (i, j)

/-- The grid effect of the `AUTO_SOLVE` power-up (lines 1849-1874). -/
def autoSolve (size : Nat) (g : List Tile) : List Tile :=
  autoScan size (allSlots size) g 0

/-- `usePowerUp` (lines 1841-1884): apply the effect for the given
kind, then remove every held power-up of that kind
(`prev.filter(p => p.type !== powerUpType)`, line 1882).  `FREEZE_TIME`
adds 15 to `timeLeft` with no cap; `SWAP_ANY` and `DOUBLE_MOVE` arm the
one-shot override; `AUTO_SOLVE` rewrites the grid. -/
def usePowerUp (t : PowerUpType) (s : GameState) : GameState :=
  let s1 :=
    match t with
    | PowerUpType.FREEZE_TIME => { s with timeLeft := s.timeLeft + 15 }
    | PowerUpType.SWAP_ANY =>
        { s with selectedPowerUp := some PowerUpType.SWAP_ANY }
    | PowerUpType.AUTO_SOLVE => { s with grid := autoSolve s.gridSize s.grid }
    | PowerUpType.DOUBLE_MOVE =>
        { s with selectedPowerUp := some PowerUpType.DOUBLE_MOVE }
  { s1 with powerUps := s1.powerUps.filter fun p => p.type ≠ t }

/-- Ascending order on score records used by the comparator
`(a, b) => a.moves - b.moves` (line 2272). -/
def movesLE (a b : ScoreRecord) : Prop := a.moves ≤ b.moves

instance : DecidableRel movesLE := fun a b => Nat.decLe a.moves b.moves

instance : IsTotal ScoreRecord movesLE :=
  ⟨fun a b => Nat.le_total a.moves b.moves⟩

instance : IsTrans ScoreRecord movesLE :=
  ⟨fun _ _ _ => Nat.le_trans⟩

/-- The leaderboard update of `handleWin` (lines 2266-2273): create the
bucket when absent, push the new record, sort ascending by `moves`
(JavaScript `Array.prototype.sort` is stable; modelled by the stable
`insertionSort`), keep the first five entries, and store the bucket
back under its key. -/
def updateHighScores (store : Store) (key : String) (rec : ScoreRecord) :
    Store :=
  let cur := (store key).getD []
  let sortedL := List.insertionSort movesLE (cur ++ [rec])
  let top := sortedL.take 5
  fun k => if k = key then some top else store k

/-- `handleWin` (lines 2235-2295): transition to the `won` screen and
record the result under the mode-dependent bucket key.  `today` is the
`new Date().toLocaleDateString()` oracle. -/
def handleWin (today : String) (s : GameState) : GameState :=
  let scoreKey :=
    if s.gameMode = Mode.puzzle then
      puzzleKey s.currentPuzzlePack s.currentPuzzleIndex
    else classicKey s.gridSize
  let newScore : ScoreRecord :=
    { name := s.playerName, moves := s.moves, timeRemaining := s.timeLeft,
      date := today, mode := s.gameMode,
      puzzleInfo :=
        if s.gameMode = Mode.puzzle then
          some (s.currentPuzzlePack, s.currentPuzzleIndex, s.maxMoves)
        else none }
  { s with gameState := GState.won,
           highScores := updateHighScores s.highScores scoreKey newScore }

/-- `isPuzzleCompleted(pack, index)` (lines 1604-1610): the bucket under
`puzzle-<pack>-<index>` exists and is a non-empty array. -/
def isPuzzleCompleted (store : Store) (pack : String) (index : Nat) : Bool :=
  match store (puzzleKey pack index) with
  | some l => decide (0 < l.length)
  | none => false

/-- `isPackCompleted(pack)` (lines 1612-1619): the pack is non-empty and
every index of its puzzle list is completed. -/
def isPackCompleted (store : Store) (pack : String) : Bool :=
  let l := PUZZLE_PACKS pack
  if l.length = 0 then false
  else (List.range l.length).all fun i => isPuzzleCompleted store pack i

/-- One firing of the timer effect (lines 2078-2095): while `playing`
with `timeLeft > 0` the scheduled callback decrements `timeLeft`; when
`timeLeft === 0` while `playing` the effect calls `handleGameOver`
instead; otherwise nothing is scheduled. -/
def timerTick (s : GameState) : GameState :=
  if s.gameState = GState.playing ∧ 0 < s.timeLeft then
    { s with timeLeft := s.timeLeft - 1 }
  else if s.gameState = GState.playing ∧ s.timeLeft = 0 then
    handleGameOver s
  else s

/-- The solved number sequence `Array.from({length: size}, (_, i) => i+1)`
(lines 2153, 2156, 2161), for `size` the tile count N². -/
def identityNumbers (size : Nat) : List Nat :=
  (List.range size).map fun i => i + 1

/-- One call of `numbers.sort(() => Math.random() - 0.5)` (line 2159).
The ECMAScript sort with an arbitrary comparator rearranges the array
under comparator answers that are not constrained to be consistent; it
is modelled as a stable comparator-driven sort whose Boolean comparator
is the oracle. -/
def sortByCmp (cmp : Nat → Nat → Bool) (l : List Nat) : List Nat :=
  List.insertionSort (fun a b => cmp a b = true) l

/-- The classic shuffle retry loop (lines 2157-2161): re-sort while the
result equals the solved sequence, for at most as many attempts as
comparator oracles supplied (the source bounds `attempts < 10`). -/
def shuffleGo (ident : List Nat) :
    List (Nat → Nat → Bool) → List Nat → List Nat
  | [], numbers => numbers
  | cmp :: rest, numbers =>
    let next := sortByCmp cmp numbers
    match rest with
    | [] => next
    | c2 :: r2 => if next = ident then shuffleGo ident (c2 :: r2) next else next

/-- The classic-mode `numbers` sequence (lines 2156-2161). -/
def classicNumbers (size : Nat) (cmps : List (Nat → Nat → Bool)) :
    List Nat :=
  shuffleGo (identityNumbers size) cmps (identityNumbers size)

/-- Grid construction from a `numbers` sequence (lines 2164-2174):
`newGrid[i][j] = { number: numbers[index], color: colors[numbers[index]-1] }`
with `index = i * gridSize + j` running over `0..gridSize²-1`. -/
def buildTiles (size2 : Nat) (numbers : List Nat) (colors : List String) :
    List Tile :=
  (List.range size2).map fun index =>
    { number := numbers.getD index 0,
      color := colors.getD (numbers.getD index 0 - 1) "" }

/-- `initializeGrid` in classic mode (lines 2128-2175, else branch of
the mode test): shuffled numbers laid out row-major.  `colors` is the
`generateDistinctColors(size)` oracle. -/
def initializeGridClassic (gridSize : Nat)
    (cmps : List (Nat → Nat → Bool)) (colors : List String) : List Tile :=
  buildTiles (gridSize * gridSize)
    (classicNumbers (gridSize * gridSize) cmps) colors

/-- `initializeGrid` in puzzle mode (lines 2147-2154): the numbers are a
copy of the selected puzzle definition's `startGrid`, or the solved
sequence when the pack/index lookup fails. -/
def initializeGridPuzzle (gridSize : Nat) (pack : String) (index : Nat)
    (colors : List String) : List Tile :=
  let numbers :=
    match (PUZZLE_PACKS pack).get? index with
    | some pz => pz.startGrid
    | none => identityNumbers (gridSize * gridSize)
  buildTiles (gridSize * gridSize) numbers colors

/-- The catch-branch fallback grid of `initializeGrid` (lines
2178-2183): the solved arrangement with fixed hsl colors. -/
def fallbackGrid (gridSize : Nat) : List Tile :=
  (List.range (gridSize * gridSize)).map fun k =>
    { number := k + 1,
      color := "hsl(" ++ toString (k * 40) ++ ", 70%, 50%)" }

/-- Row completion predicate in the sense of the specification for the
classic numbering mode (spec section 4.3): every slot of the row holds
its target number.  The source has no row-completion notion of its own;
this definition follows the specification wording and is used to state
the row-award claim against the code. -/
def rowComplete (size : Nat) (g : List Tile) (row : Nat) : Bool :=
  (List.range size).all fun j =>
    match g.get? (row * size + j) with
    | some t => t.number == row * size + j + 1
    | none => false

/-- Grid with the given numbers and blank colors; concrete instances
for witnesses and counterexamples. -/
def numberGrid (ns : List Nat) : List Tile :=
  ns.map fun n => { number := n, color := "" }

/-- The empty persisted store. -/
def emptyStore : Store := fun _ => none

/-- A concrete mid-round classic state used by witnesses and
counterexamples: playing a 4 by 4 classic round on the solved grid. -/
def baseState : GameState :=
  { gameState := GState.playing, gameMode := Mode.classic, gridSize := 4,
    grid := numberGrid (identityNumbers 16), selectedTile := none,
    moves := 0, timeLeft := 60, maxMoves := 0, powerUps := [],
    selectedPowerUp := none, highScores := emptyStore,
    currentPuzzlePack := "beginner", currentPuzzleIndex := 0,
    playerName := "p" }

/-- A fixed random oracle: the 15% roll succeeds, the kind drawn is the
first catalog entry, the id is 0. -/
def rand0 : Rand := { chance := true, kindIdx := 0, newId := 0 }

/-! Theorems. -/

/-- C1 (amended): applying Freeze-Time increases `timeLeft` by exactly
15 with no cap of any kind; the round state is otherwise unchanged
except that all held Freeze-Time tokens are removed. -/
theorem freezeTime_adds_fifteen_no_cap (s : GameState) :
    (usePowerUp PowerUpType.FREEZE_TIME s).timeLeft = s.timeLeft + 15 ∧
    (usePowerUp PowerUpType.FREEZE_TIME s).grid = s.grid ∧
    (usePowerUp PowerUpType.FREEZE_TIME s).moves = s.moves :=
  ⟨rfl, rfl, rfl⟩

/-- C1 counterexample: applying Freeze-Time with 295 seconds remaining
yields 310, not the 300 the claim's cap would require. -/
theorem freezeTime_at_295_gives_310 :
    (usePowerUp PowerUpType.FREEZE_TIME
      { baseState with timeLeft := 295 }).timeLeft = 310 ∧
    (usePowerUp PowerUpType.FREEZE_TIME
      { baseState with timeLeft := 295 }).timeLeft ≠ 300 := by
  exact ⟨rfl, by decide⟩

/-- C7: evaluating the `AUTO_SOLVE` effect on a board whose row 1 holds
6, 7, 5 (a three-cycle; the first two misplaced slots in row-major
order are (1,0) and (1,1)).  The code relocates 5 into slot (1,0) and
then, because of the `if (fixed > 0) break;` at line 1869, abandons the
search for slot (1,1)'s number 6 after scanning grid row 0 alone, so
slot (1,1) still holds 7 afterwards, although at least two tiles were
misplaced and the claim (and the comment at line 1850, "find first two
out-of-place tiles and place them correctly") requires both found slots
to be corrected. -/
theorem autoSolve_aborts_second_relocation :
    autoSolve 4 (numberGrid [1,2,3,4, 6,7,5,8, 9,10,11,12, 13,14,15,16]) =
      numberGrid [1,2,3,4, 5,7,6,8, 9,10,11,12, 13,14,15,16] ∧
    ((autoSolve 4 (numberGrid [1,2,3,4, 6,7,5,8, 9,10,11,12, 13,14,15,16])).getD
        5 default).number = 7 := by
  exact ⟨by decide, by decide⟩

/-- C10: a timer tick never drives `timeLeft` negative; the tick
decrements exactly when the round is playing with positive time, and a
tick at zero while playing performs the game-over transition with
`timeLeft` untouched. -/
theorem timer_tick_nonnegative (s : GameState) (h : 0 ≤ s.timeLeft) :
    0 ≤ (timerTick s).timeLeft ∧
    ((timerTick s).timeLeft ≠ s.timeLeft →
      s.gameState = GState.playing ∧ 0 < s.timeLeft ∧
      (timerTick s).timeLeft = s.timeLeft - 1) ∧
    (s.gameState = GState.playing → s.timeLeft = 0 →
      timerTick s = { s with gameState := GState.gameOver }) := by
  unfold timerTick handleGameOver
  by_cases h1 : s.gameState = GState.playing ∧ 0 < s.timeLeft
  · simp only [if_pos h1]
    refine ⟨by omega, fun _ => ⟨h1.1, h1.2, by trivial⟩, fun _ hz => ?_⟩
    exact absurd hz (by omega)
  · simp only [if_neg h1]
    by_cases h2 : s.gameState = GState.playing ∧ s.timeLeft = 0
    · simp only [if_pos h2]
      exact ⟨h, fun hne => absurd rfl hne, fun _ _ => by trivial⟩
    · simp only [if_neg h2]
      exact ⟨h, fun hne => absurd rfl hne,
        fun hp hz => absurd ⟨hp, hz⟩ h2⟩

/-- C10 witness: the theorem applied to the concrete playing state with
60 seconds remaining. -/
theorem timer_tick_nonnegative_witness :
    0 ≤ (timerTick baseState).timeLeft ∧
    ((timerTick baseState).timeLeft ≠ baseState.timeLeft →
      baseState.gameState = GState.playing ∧ 0 < baseState.timeLeft ∧
      (timerTick baseState).timeLeft = baseState.timeLeft - 1) ∧
    (baseState.gameState = GState.playing → baseState.timeLeft = 0 →
      timerTick baseState = { baseState with gameState := GState.gameOver }) :=
  timer_tick_nonnegative baseState (by decide)

/-- C3 (amended): with one tile selected, no override armed, and a
press on a tile distinct from the selection that is not adjacent to it,
nothing is swapped: the whole state is unchanged except that the
selection moves to the pressed tile. -/
theorem nonadjacent_distinct_press_reselects
    (r : Rand) (s : GameState) (row col selRow selCol : Nat)
    (hplay : s.gameState = GState.playing)
    (hover : s.selectedPowerUp = none)
    (hsel : s.selectedTile = some (selRow, selCol))
    (hne : ¬(row = selRow ∧ col = selCol))
    (hadj : isAdjacent row col selRow selCol = false) :
    handleTilePress r row col s = { s with selectedTile := some (row, col) } := by
  simp [handleTilePress, hplay, hover, hsel, hne, hadj]

/-- C3 witness: the theorem applied to the base state with (0,0)
selected and a press on the distant tile (2,2). -/
theorem nonadjacent_distinct_press_reselects_witness :
    handleTilePress rand0 2 2 { baseState with selectedTile := some (0, 0) } =
      { baseState with selectedTile := some (2, 2) } :=
  nonadjacent_distinct_press_reselects rand0
    { baseState with selectedTile := some (0, 0) } 2 2 0 0 rfl rfl rfl
    (by decide) (by decide)

/-- C3 counterexample: the selected tile itself is at Manhattan
distance 0 from the selection, hence not adjacent, yet pressing it
clears the selection instead of moving the selection to the pressed
tile, because the same-tile test at line 2331 precedes the adjacency
test. -/
theorem press_selected_not_adjacent_deselects :
    isAdjacent 0 0 0 0 = false ∧
    (handleTilePress rand0 0 0
        { baseState with selectedTile := some (0, 0) }).selectedTile = none ∧
    (handleTilePress rand0 0 0
        { baseState with selectedTile := some (0, 0) }).selectedTile ≠
      some (0, 0) := by
  exact ⟨by decide, by decide, by decide⟩

/-- C5 (amended): with any armed override other than `SWAP_ANY` (so
none, or the free-move override), pressing the selected tile again
deselects it: no swap, no move counted, nothing else changes.  With
`SWAP_ANY` armed the press instead falls into the teleport branch. -/
theorem press_selected_again_deselects_without_swapAny
    (r : Rand) (s : GameState) (row col : Nat)
    (hplay : s.gameState = GState.playing)
    (hsel : s.selectedTile = some (row, col))
    (hover : s.selectedPowerUp ≠ some PowerUpType.SWAP_ANY) :
    handleTilePress r row col s = { s with selectedTile := none } := by
  simp [handleTilePress, hplay, hsel, hover]

/-- C5 witness: the theorem applied with the free-move override armed
and tile (1,1) selected and pressed again. -/
theorem press_selected_again_deselects_without_swapAny_witness :
    handleTilePress rand0 1 1
        { baseState with selectedTile := some (1, 1),
                         selectedPowerUp := some PowerUpType.DOUBLE_MOVE } =
      { baseState with selectedTile := none,
                       selectedPowerUp := some PowerUpType.DOUBLE_MOVE } :=
  press_selected_again_deselects_without_swapAny rand0
    { baseState with selectedTile := some (1, 1),
                     selectedPowerUp := some PowerUpType.DOUBLE_MOVE }
    1 1 rfl rfl (by decide)

/-- C5 counterexample: with the `SWAP_ANY` override armed, pressing the
selected tile again does not deselect-and-return-to-idle: the
`SWAP_ANY` branch (lines 2303-2324) has no same-tile test, so it
performs a self-swap and increments the move counter. -/
theorem press_selected_with_swapAny_counts_move :
    (handleTilePress rand0 0 0
        { baseState with selectedTile := some (0, 0),
                         selectedPowerUp := some PowerUpType.SWAP_ANY }).moves ≠
      ({ baseState with selectedTile := some (0, 0),
                        selectedPowerUp := some PowerUpType.SWAP_ANY } :
        GameState).moves ∧
    (handleTilePress rand0 0 0
        { baseState with selectedTile := some (0, 0),
                         selectedPowerUp := some PowerUpType.SWAP_ANY }).moves = 1 := by
  exact ⟨by decide, by decide⟩

/-- C4 (amended): the fixed-puzzle move-budget check guards the
adjacent-swap branch only: in puzzle mode, for a press that would
perform an adjacent swap while no `SWAP_ANY` override is armed, an
exhausted budget (`moves >= maxMoves`) ends the round as a loss and the
swap is not performed — the state is unchanged except for the
transition to `gameOver`.  A swap made through the `SWAP_ANY` override
skips this check (see the counterexample). -/
theorem puzzle_budget_blocks_adjacent_swap
    (r : Rand) (s : GameState) (row col selRow selCol : Nat)
    (hplay : s.gameState = GState.playing)
    (hmode : s.gameMode = Mode.puzzle)
    (hover : s.selectedPowerUp ≠ some PowerUpType.SWAP_ANY)
    (hsel : s.selectedTile = some (selRow, selCol))
    (hne : ¬(row = selRow ∧ col = selCol))
    (hadj : isAdjacent row col selRow selCol = true)
    (hbudget : s.maxMoves ≤ s.moves) :
    handleTilePress r row col s = { s with gameState := GState.gameOver } := by
  simp [handleTilePress, handleGameOver, hplay, hmode, hover, hsel, hne,
    hadj, hbudget]

/-- C4 witness: the theorem applied to a puzzle round whose single
allowed move is already spent, with (0,0) selected and the adjacent
tile (0,1) pressed. -/
theorem puzzle_budget_blocks_adjacent_swap_witness :
    handleTilePress rand0 0 1
        { baseState with gameMode := Mode.puzzle, maxMoves := 1, moves := 1,
                         selectedTile := some (0, 0) } =
      { baseState with gameMode := Mode.puzzle, maxMoves := 1, moves := 1,
                       selectedTile := some (0, 0),
                       gameState := GState.gameOver } :=
  puzzle_budget_blocks_adjacent_swap rand0
    { baseState with gameMode := Mode.puzzle, maxMoves := 1, moves := 1,
                     selectedTile := some (0, 0) }
    0 1 0 0 rfl rfl (by decide) rfl (by decide) (by decide) (by decide)

/-- C4 counterexample: in puzzle mode with the budget already exhausted
(`moves = maxMoves = 1`) and the `SWAP_ANY` override armed, pressing
(2,2) with (0,0) selected performs the swap anyway: the grid changes,
the move counter rises to 2 past the budget, and the round does not end
— the `SWAP_ANY` branch never consults `maxMoves`. -/
theorem swapAny_bypasses_puzzle_budget :
    (handleTilePress rand0 2 2
        { baseState with gameMode := Mode.puzzle, maxMoves := 1, moves := 1,
                         selectedTile := some (0, 0),
                         selectedPowerUp := some PowerUpType.SWAP_ANY }).grid ≠
      ({ baseState with gameMode := Mode.puzzle, maxMoves := 1, moves := 1,
                        selectedTile := some (0, 0),
                        selectedPowerUp := some PowerUpType.SWAP_ANY } :
        GameState).grid ∧
    (handleTilePress rand0 2 2
        { baseState with gameMode := Mode.puzzle, maxMoves := 1, moves := 1,
                         selectedTile := some (0, 0),
                         selectedPowerUp := some PowerUpType.SWAP_ANY }).moves = 2 ∧
    (handleTilePress rand0 2 2
        { baseState with gameMode := Mode.puzzle, maxMoves := 1, moves := 1,
                         selectedTile := some (0, 0),
                         selectedPowerUp := some PowerUpType.SWAP_ANY }).gameState =
      GState.playing := by
  exact ⟨by decide, by decide, by decide⟩

/-- A classic mid-round state in which swapping (0,0) with (0,1)
newly completes row 0 while row 1 stays incomplete. -/
def rowCompletingState : GameState :=
  { baseState with
      grid := numberGrid [2,1,3,4, 6,5,7,8, 9,10,11,12, 13,14,15,16],
      selectedTile := some (0, 0) }

/-- C6 (amended): power-up awards are tied to the move counter of
adjacent swaps, not to row completion.  With a tile selected:
a teleport (`SWAP_ANY`) second press is a counted move but never awards
anything, whatever the oracle; a free-move (`DOUBLE_MOVE`) adjacent
swap is not counted and never awards; and an adjacent swap with no
override armed and the budget check passed gains exactly one uniformly
drawn catalog entry when it is a counted classic-mode move whose new
count is a multiple of 8 and the 15% roll succeeds, and nothing
otherwise; the draw ranges bijectively over the whole catalog. -/
theorem powerup_award_only_eighth_adjacent_move
    (r : Rand) (s : GameState) (row col selRow selCol : Nat)
    (hplay : s.gameState = GState.playing)
    (hsel : s.selectedTile = some (selRow, selCol)) :
    (s.selectedPowerUp = some PowerUpType.SWAP_ANY →
      (handleTilePress r row col s).powerUps = s.powerUps ∧
      (handleTilePress r row col s).moves = s.moves + 1) ∧
    (s.selectedPowerUp = some PowerUpType.DOUBLE_MOVE →
      ¬(row = selRow ∧ col = selCol) →
      isAdjacent row col selRow selCol = true →
      ¬(s.gameMode = Mode.puzzle ∧ s.maxMoves ≤ s.moves) →
      (handleTilePress r row col s).powerUps = s.powerUps ∧
      (handleTilePress r row col s).moves = s.moves) ∧
    (s.selectedPowerUp = none →
      ¬(row = selRow ∧ col = selCol) →
      isAdjacent row col selRow selCol = true →
      ¬(s.gameMode = Mode.puzzle ∧ s.maxMoves ≤ s.moves) →
      (handleTilePress r row col s).powerUps =
        (if s.gameMode = Mode.classic ∧ (s.moves + 1) % 8 = 0 ∧ r.chance then
          s.powerUps ++ [{ id := r.newId, type := powerUpAt r.kindIdx }]
        else s.powerUps)) ∧
    Function.Bijective powerUpAt := by
  refine ⟨?_, ?_, ?_, ?_⟩
  · intro hsw
    simp [handleTilePress, hplay, hsw, hsel]
  · intro hdm hne hadj hbudget
    have hsw : s.selectedPowerUp ≠ some PowerUpType.SWAP_ANY := by
      rw [hdm]
      simp
    simp [handleTilePress, hplay, hsw, hdm, hsel, hne, hadj, hbudget]
  · intro hover hne hadj hbudget
    simp only [handleTilePress, generatePowerUp, hplay, hover, hsel, hne,
      hadj, hbudget]
    by_cases hc : s.gameMode = Mode.classic ∧ (s.moves + 1) % 8 = 0
    · by_cases hch : r.chance = true
      · simp [hc, hch, hc.1]
      · simp [hc, hch, hc.1]
    · have hc3 : ¬(s.gameMode = Mode.classic ∧ (s.moves + 1) % 8 = 0 ∧
          r.chance = true) := fun h => hc ⟨h.1, h.2.1⟩
      simp [hc, hc3]
  · constructor
    · intro a b hab
      fin_cases a <;> fin_cases b <;> first | rfl | cases hab
    · intro t
      cases t
      · exact ⟨0, rfl⟩
      · exact ⟨1, rfl⟩
      · exact ⟨2, rfl⟩
      · exact ⟨3, rfl⟩

/-- C6 witness: on the 8th counted move of a classic round with a
succeeding roll, an adjacent swap appends the drawn power-up, while a
teleport swap from the same position — also a counted move landing on
a multiple of 8, with the same favorable oracle — appends nothing. -/
theorem powerup_award_only_eighth_adjacent_move_witness :
    ((handleTilePress rand0 0 1
        { baseState with moves := 7, selectedTile := some (0, 0) }).powerUps =
      (if ({ baseState with moves := 7, selectedTile := some (0, 0) } :
            GameState).gameMode = Mode.classic ∧
          (({ baseState with moves := 7, selectedTile := some (0, 0) } :
            GameState).moves + 1) % 8 = 0 ∧ rand0.chance then
        ({ baseState with moves := 7, selectedTile := some (0, 0) } :
          GameState).powerUps ++
          [{ id := rand0.newId, type := powerUpAt rand0.kindIdx }]
      else ({ baseState with moves := 7, selectedTile := some (0, 0) } :
        GameState).powerUps)) ∧
    ((handleTilePress rand0 2 2
        { baseState with moves := 7, selectedTile := some (0, 0),
                         selectedPowerUp := some PowerUpType.SWAP_ANY }).powerUps =
      [] ∧
      (handleTilePress rand0 2 2
        { baseState with moves := 7, selectedTile := some (0, 0),
                         selectedPowerUp := some PowerUpType.SWAP_ANY }).moves =
        8) :=
  ⟨(powerup_award_only_eighth_adjacent_move rand0
      { baseState with moves := 7, selectedTile := some (0, 0) }
      0 1 0 0 rfl rfl).2.2.1 rfl (by decide) (by decide) (by decide),
   (powerup_award_only_eighth_adjacent_move rand0
      { baseState with moves := 7, selectedTile := some (0, 0),
                       selectedPowerUp := some PowerUpType.SWAP_ANY }
      2 2 0 0 rfl rfl).1 rfl⟩

/-- C6 counterexample: a swap that newly completes row 0 on a counted
move whose count is not a multiple of 8 appends nothing, even with the
most favorable random oracle (`chance = true`): the engine has no
row-completion award at all. -/
theorem row_completion_awards_no_powerup :
    rowComplete 4 rowCompletingState.grid 0 = false ∧
    rowComplete 4 (handleTilePress rand0 0 1 rowCompletingState).grid 0 = true ∧
    rand0.chance = true ∧
    (handleTilePress rand0 0 1 rowCompletingState).powerUps = [] := by
  exact ⟨by decide, by decide, by decide, by decide⟩

/-- In a list sorted ascending by `moves`, every element's `moves` is
bounded by the last element's. -/
theorem sorted_movesLE_le_getLast {l : List ScoreRecord}
    (hs : List.Sorted movesLE l) (hne : l ≠ []) :
    ∀ x ∈ l, x.moves ≤ (l.getLast hne).moves := by
  intro x hx
  have hsplit := List.dropLast_append_getLast hne
  rw [← hsplit] at hs hx
  rcases List.mem_append.mp hx with h | h
  · exact (List.pairwise_append.mp hs).2.2 x h (l.getLast hne) (by simp)
  · simp only [List.mem_singleton] at h
    rw [h]

/-- C2: recording a result stores under its bucket key a list of at
most 5 records sorted ascending by `moves`; moreover, when the bucket
already held 5 sorted records and the new record has strictly fewer
moves than the current worst (the last, hence maximal, entry), the new
record is kept and one record carrying the worst move count is the one
evicted — the bucket plus that evicted record is a permutation of the
old bucket plus the new record. -/
theorem recordResult_top5_sorted_evicts_worst
    (store : Store) (key : String) (rec : ScoreRecord) :
    ∃ bucket, updateHighScores store key rec key = some bucket ∧
      bucket.length ≤ 5 ∧ List.Sorted movesLE bucket ∧
      (∀ old, store key = some old → old.length = 5 →
        List.Sorted movesLE old → ∀ hne : old ≠ [],
        rec.moves < (old.getLast hne).moves →
        rec ∈ bucket ∧ ∃ w, w.moves = (old.getLast hne).moves ∧
          (bucket ++ [w]).Perm (old ++ [rec])) := by
  refine ⟨(List.insertionSort movesLE (((store key).getD []) ++ [rec])).take 5,
    ?_, ?_, ?_, ?_⟩
  · simp [updateHighScores]
  · simp only [List.length_take]
    omega
  · exact List.Pairwise.sublist (List.take_sublist 5 _)
      (List.sorted_insertionSort movesLE _)
  · intro old hold h5 hs hne hlt
    rw [hold]
    simp only [Option.getD_some]
    have hPerm := List.perm_insertionSort movesLE (old ++ [rec])
    have hSort := List.sorted_insertionSort movesLE (old ++ [rec])
    set L := List.insertionSort movesLE (old ++ [rec]) with hL
    have hLen : L.length = 6 := by
      rw [hPerm.length_eq]
      simp [h5]
    have h5lt : 5 < L.length := by omega
    have hdrop : L.drop 5 = [L.get ⟨5, h5lt⟩] := by
      rw [List.drop_eq_getElem_cons h5lt, List.drop_eq_nil_of_le (by omega)]
      simp
    have hLsplit : L.take 5 ++ [L.get ⟨5, h5lt⟩] = L := by
      conv_rhs => rw [← List.take_append_drop 5 L]
      rw [hdrop]
    have hmax : ∀ x ∈ L, x.moves ≤ (L.get ⟨5, h5lt⟩).moves := by
      intro x hx
      rw [← hLsplit] at hx hSort
      rcases List.mem_append.mp hx with h | h
      · exact (List.pairwise_append.mp hSort).2.2 x h _ (by simp)
      · simp only [List.mem_singleton] at h
        rw [h]
    have hworst_le_w : (old.getLast hne).moves ≤ (L.get ⟨5, h5lt⟩).moves :=
      hmax (old.getLast hne)
        (hPerm.mem_iff.mpr (List.mem_append_left _ (List.getLast_mem hne)))
    have hw_in_old : L.get ⟨5, h5lt⟩ ∈ old := by
      have hinL : L.get ⟨5, h5lt⟩ ∈ L := List.get_mem L 5 h5lt
      rcases List.mem_append.mp (hPerm.mem_iff.mp hinL) with h | h
      · exact h
      · simp only [List.mem_singleton] at h
        rw [h] at hworst_le_w
        omega
    have hw_moves : (L.get ⟨5, h5lt⟩).moves = (old.getLast hne).moves :=
      Nat.le_antisymm (sorted_movesLE_le_getLast hs hne _ hw_in_old)
        hworst_le_w
    have hrec_front : rec ∈ L.take 5 := by
      have hrecL : rec ∈ L := hPerm.mem_iff.mpr (by simp)
      rw [← hLsplit] at hrecL
      rcases List.mem_append.mp hrecL with h | h
      · exact h
      · simp only [List.mem_singleton] at h
        rw [← h] at hw_moves
        omega
    refine ⟨hrec_front, L.get ⟨5, h5lt⟩, hw_moves, ?_⟩
    rw [hLsplit]
    exact hPerm

/-- A concrete score record with the given move count. -/
def rec5 (m : Nat) : ScoreRecord :=
  { name := "p", moves := m, timeRemaining := 0, date := "d",
    mode := Mode.classic }

/-- A store whose 4x4 bucket is full with worst entry 9 moves. -/
def fullBucketStore : Store := fun k =>
  if k = "4x4" then some [rec5 1, rec5 2, rec5 3, rec5 4, rec5 9] else none

/-- C2 witness: recording a 5-move win into the full bucket keeps the
new record and evicts the 9-move worst. -/
theorem recordResult_top5_sorted_evicts_worst_witness :
    ∃ bucket, updateHighScores fullBucketStore "4x4" (rec5 5) "4x4" =
        some bucket ∧
      bucket.length ≤ 5 ∧ List.Sorted movesLE bucket ∧
      (rec5 5 ∈ bucket ∧ ∃ w, w.moves = 9 ∧
        (bucket ++ [w]).Perm
          ([rec5 1, rec5 2, rec5 3, rec5 4, rec5 9] ++ [rec5 5])) := by
  obtain ⟨bucket, h1, h2, h3, h4⟩ :=
    recordResult_top5_sorted_evicts_worst fullBucketStore "4x4" (rec5 5)
  exact ⟨bucket, h1, h2, h3,
    h4 [rec5 1, rec5 2, rec5 3, rec5 4, rec5 9] rfl rfl (by decide)
      (by decide) (by decide)⟩

/-- C8: for each of the three defined packs, `isPackCompleted` is true
exactly when every puzzle index of the pack has a non-empty result
bucket; and when exactly one index is still missing, the pack is not
completed before, and becomes completed by recording any result for
that index. -/
theorem packCompleted_iff_all_puzzles_recorded
    (store : Store) (pack : String)
    (hp : pack = "beginner" ∨ pack = "intermediate" ∨ pack = "advanced") :
    (isPackCompleted store pack = true ↔
      ∀ i < (PUZZLE_PACKS pack).length,
        isPuzzleCompleted store pack i = true) ∧
    ∀ j rec, j < (PUZZLE_PACKS pack).length →
      (∀ i < (PUZZLE_PACKS pack).length, i ≠ j →
        isPuzzleCompleted store pack i = true) →
      isPuzzleCompleted store pack j = false →
      isPackCompleted store pack = false ∧
      isPackCompleted
        (updateHighScores store (puzzleKey pack j) rec) pack = true := by
  have hlen0 : (PUZZLE_PACKS pack).length ≠ 0 := by
    rcases hp with h | h | h <;> subst h <;> decide
  have hiffgen : ∀ st : Store, isPackCompleted st pack = true ↔
      ∀ i < (PUZZLE_PACKS pack).length, isPuzzleCompleted st pack i = true := by
    intro st
    simp [isPackCompleted, hlen0, List.all_eq_true, List.mem_range]
  have hlen5 : (PUZZLE_PACKS pack).length ≤ 5 := by
    rcases hp with h | h | h <;> subst h <;> decide
  have hkeyinj5 : ∀ a, a < 5 → ∀ b, b < 5 →
      puzzleKey pack a = puzzleKey pack b → a = b := by
    rcases hp with h | h | h <;> subst h <;> decide
  have hkeyinj : ∀ a b, a < (PUZZLE_PACKS pack).length →
      b < (PUZZLE_PACKS pack).length →
      puzzleKey pack a = puzzleKey pack b → a = b := fun a b ha hb =>
    hkeyinj5 a (Nat.lt_of_lt_of_le ha hlen5) b (Nat.lt_of_lt_of_le hb hlen5)
  refine ⟨hiffgen store, ?_⟩
  intro j rec hj hothers hjfalse
  constructor
  · rcases Bool.eq_false_or_eq_true (isPackCompleted store pack) with h | h
    · have := (hiffgen store).mp h j hj
      simp [hjfalse] at this
    · exact h
  · refine (hiffgen _).mpr ?_
    intro i hi
    by_cases hij : i = j
    · subst hij
      simp only [isPuzzleCompleted, updateHighScores, if_pos rfl]
      have hlen :=
        (List.perm_insertionSort movesLE
          (((store (puzzleKey pack i)).getD []) ++ [rec])).length_eq
      simp only [List.length_append, List.length_singleton] at hlen
      simp only [List.length_take]
      rw [decide_eq_true_eq]
      omega
    · have hkey : puzzleKey pack i ≠ puzzleKey pack j := by
        intro heq
        exact hij (hkeyinj i j hi hj heq)
      have h := hothers i hi hij
      simp only [isPuzzleCompleted, updateHighScores, if_neg hkey] at h ⊢
      exact h

/-- A store in which the first four beginner puzzles have a recorded
result and the fifth does not. -/
def beginnerFourStore : Store := fun k =>
  if k = puzzleKey "beginner" 0 ∨ k = puzzleKey "beginner" 1 ∨
     k = puzzleKey "beginner" 2 ∨ k = puzzleKey "beginner" 3 then
    some [rec5 1]
  else none

/-- C8 witness: with beginner puzzles 0-3 recorded, the pack is not
completed; recording a result for puzzle 4 completes it. -/
theorem packCompleted_iff_all_puzzles_recorded_witness :
    isPackCompleted beginnerFourStore "beginner" = false ∧
    isPackCompleted
      (updateHighScores beginnerFourStore (puzzleKey "beginner" 4) (rec5 2))
      "beginner" = true :=
  (packCompleted_iff_all_puzzles_recorded beginnerFourStore "beginner"
    (Or.inl rfl)).2 4 (rec5 2) (by decide) (by decide) (by decide)

/-- Exchanging two in-range positions permutes the board. -/
theorem swapTiles_perm (g : List Tile) (a b : Nat) (ha : a < g.length)
    (hb : b < g.length) : (swapTiles g a b).Perm g := by
  rw [List.perm_iff_count]
  intro x
  unfold swapTiles
  have hga : g.getD a default = g[a] := List.getD_eq_getElem g default ha
  have hgb : g.getD b default = g[b] := List.getD_eq_getElem g default hb
  rw [hga, hgb]
  have hb2 : b < (g.set a (g[b])).length := by
    rw [List.length_set]
    exact hb
  rw [List.count_set _ _ _ _ hb2, List.count_set _ _ _ _ ha]
  have hca : g[a] = x → 0 < List.count x g := fun h =>
    List.count_pos_iff.mpr (h ▸ List.getElem_mem ha)
  by_cases hab : a = b
  · subst hab
    have hset : (g.set a (g[a]))[a] = g[a] := List.getElem_set_self _
    rw [hset]
    by_cases hax : g[a] = x
    · have hc := hca hax
      simp only [beq_iff_eq, hax, if_pos]
      omega
    · simp [beq_iff_eq, hax]
  · have hcb : g[b] = x → 0 < List.count x g := fun h =>
      List.count_pos_iff.mpr (h ▸ List.getElem_mem hb)
    have hsetb : (g.set a (g[b]))[b] = g[b] :=
      List.getElem_set_of_ne hab _ hb2
    rw [hsetb]
    by_cases hax : g[a] = x <;> by_cases hbx : g[b] = x
    · have hc := hca hax
      simp only [beq_iff_eq, hax, hbx, if_pos]
      omega
    · have hc := hca hax
      simp [beq_iff_eq, hax, hbx]
      omega
    · have hc := hcb hbx
      simp [beq_iff_eq, hax, hbx]
    · simp [beq_iff_eq, hax, hbx]

/-- The numbers of a built grid are exactly the supplied sequence when
its length matches the slot count. -/
theorem buildTiles_map_number (size2 : Nat) (numbers : List Nat)
    (colors : List String) (h : numbers.length = size2) :
    (buildTiles size2 numbers colors).map Tile.number = numbers := by
  apply List.ext_getElem
  · simp [buildTiles, h]
  · intro n h1 h2
    simp only [buildTiles, List.getElem_map, List.getElem_range]
    exact List.getD_eq_getElem numbers 0 h2

/-- The shuffle retry loop only permutes its input. -/
theorem shuffleGo_perm (ident : List Nat)
    (cmps : List (Nat → Nat → Bool)) (numbers : List Nat) :
    (shuffleGo ident cmps numbers).Perm numbers := by
  induction cmps generalizing numbers with
  | nil => exact List.Perm.refl numbers
  | cons cmp rest ih =>
    cases rest with
    | nil =>
      simp only [shuffleGo]
      exact List.perm_insertionSort _ _
    | cons c2 r2 =>
      simp only [shuffleGo]
      by_cases hid : sortByCmp cmp numbers = ident
      · rw [if_pos hid]
        exact (ih (sortByCmp cmp numbers)).trans (List.perm_insertionSort _ _)
      · rw [if_neg hid]
        exact List.perm_insertionSort _ _

/-- C9: in classic mode the multiset of tile numbers is `{1..N²}` at
generation — for every shuffle-comparator oracle, every fixed-puzzle
start grid of the three packs, and the error fallback — and every tile
press (adjacent swap, teleport swap, selection change or rejected move)
preserves the multiset of numbers on the board. -/
theorem classic_grid_multiset_invariant :
    (∀ gridSize cmps colors,
      ((initializeGridClassic gridSize cmps colors).map Tile.number).Perm
        (identityNumbers (gridSize * gridSize))) ∧
    (∀ gridSize, (fallbackGrid gridSize).map Tile.number =
      identityNumbers (gridSize * gridSize)) ∧
    (∀ pack pz,
      (pack = "beginner" ∨ pack = "intermediate" ∨ pack = "advanced") →
      pz ∈ PUZZLE_PACKS pack → pz.startGrid.Perm (identityNumbers 16)) ∧
    (∀ r s row col, s.grid.length = s.gridSize * s.gridSize →
      row < s.gridSize → col < s.gridSize →
      (∀ t : Nat × Nat, s.selectedTile = some t →
        t.1 < s.gridSize ∧ t.2 < s.gridSize) →
      ((handleTilePress r row col s).grid.map Tile.number).Perm
        (s.grid.map Tile.number)) := by
  refine ⟨?_, ?_, ?_, ?_⟩
  · intro gridSize cmps colors
    have hperm : (classicNumbers (gridSize * gridSize) cmps).Perm
        (identityNumbers (gridSize * gridSize)) :=
      shuffleGo_perm _ cmps _
    have hlen : (classicNumbers (gridSize * gridSize) cmps).length =
        gridSize * gridSize := by
      rw [hperm.length_eq]
      simp [identityNumbers]
    rw [initializeGridClassic, buildTiles_map_number _ _ _ hlen]
    exact hperm
  · intro gridSize
    simp [fallbackGrid, identityNumbers, List.map_map, Function.comp]
  · intro pack pz hp hmem
    rcases hp with h | h | h <;> subst h <;> revert hmem <;> revert pz <;>
      decide
  · intro r s row col hg hrow hcol hsel
    have hidx : ∀ i j, i < s.gridSize → j < s.gridSize →
        i * s.gridSize + j < s.grid.length := by
      intro i j hi hj
      rw [hg]
      calc i * s.gridSize + j < i * s.gridSize + s.gridSize := by omega
        _ = (i + 1) * s.gridSize := by ring
        _ ≤ s.gridSize * s.gridSize :=
          Nat.mul_le_mul_right _ (Nat.succ_le_of_lt hi)
    unfold handleTilePress
    split
    · exact List.Perm.refl _
    · split
      · split
        · exact List.Perm.refl _
        · next sr sc heq =>
          exact List.Perm.map Tile.number
            (swapTiles_perm _ _ _ (hidx row col hrow hcol)
              (hidx sr sc (hsel _ heq).1 (hsel _ heq).2))
      · split
        · exact List.Perm.refl _
        · next sr sc heq =>
          split
          · exact List.Perm.refl _
          · split
            · split
              · exact List.Perm.refl _
              · split
                · exact List.Perm.map Tile.number
                    (swapTiles_perm _ _ _ (hidx row col hrow hcol)
                      (hidx sr sc (hsel _ heq).1 (hsel _ heq).2))
                · exact List.Perm.map Tile.number
                    (swapTiles_perm _ _ _ (hidx row col hrow hcol)
                      (hidx sr sc (hsel _ heq).1 (hsel _ heq).2))
            · exact List.Perm.refl _

/-- C9 witness: the adjacent swap of (0,0) and (0,1) on the concrete
base state preserves the multiset of numbers. -/
theorem classic_grid_multiset_invariant_witness :
    ((handleTilePress rand0 0 1
        { baseState with selectedTile := some (0, 0) }).grid.map
      Tile.number).Perm
      (({ baseState with selectedTile := some (0, 0) } :
        GameState).grid.map Tile.number) :=
  classic_grid_multiset_invariant.2.2.2 rand0
    { baseState with selectedTile := some (0, 0) } 0 1 (by decide)
    (by decide) (by decide)
    (fun t ht => by
      rw [← Option.some.inj ht]
      exact ⟨by decide, by decide⟩)

end GridZen
